import Mathlib

/-!
Shallow embedding of `boring-sys/build.rs` (the build orchestrator of the
`boring` repository) and proofs about it.

Conventions of the embedding:
* ambient environment variables become explicit parameters (`Option String`
  when the variable may be absent);
* compile-time `cfg!` feature flags become `Bool` parameters;
* spawning an external process becomes an oracle `String → SpawnResult`
  mapping a tool name to the outcome of running `<tool> --version`;
* a `panic!` / failed `assert!` / failed `expect` becomes `none` (for
  `Option`-valued functions) or a dedicated error constructor;
* the filesystem directory listing consumed by the NDK locator becomes an
  explicit `Except` value.
-/

namespace BoringSys

/-- Substring helper on `List Char`: does the list contain `pat` as a
contiguous infix?  Mirrors Rust `str::contains` on the character level. -/
def containsAux (pat : List Char) : List Char → Bool
  | [] => pat.isEmpty
  | c :: tl => pat.isPrefixOf (c :: tl) || containsAux pat tl

/-- Rust `str::contains(pat)`: `pat` occurs as a contiguous substring of `s`. -/
def rustContains (s pat : String) : Bool :=
  containsAux pat.data s.data

/-- Rust `s.lines().next()`: `none` on the empty string, otherwise the prefix
of `s` up to (excluding) the first `'\n'`, with a trailing `'\r'` stripped
when the line was terminated by `"\r\n"`; a string without `'\n'` is one
line, returned verbatim. -/
def rustFirstLine (s : String) : Option String :=
  match s.data with
  | [] => none
  | cs =>
    if cs.contains '\n' then
      let l := cs.takeWhile (fun c => c != '\n')
      some (String.mk (if l.getLast? = some '\r' then l.dropLast else l))
    else some s

/-- Outcome of `Command::new(tool).arg("--version").output()`. -/
inductive SpawnResult where
  /-- The binary could not be spawned at all (`Err(e)` from `output()`). -/
  | spawnError : SpawnResult
  /-- The process ran; `success` is `status.success()`, `stdout` its output. -/
  | exited (success : Bool) (stdout : String) : SpawnResult
deriving DecidableEq

/-- The inner `version` helper of `verify_fips_clang_version`:

```rust
fn version(tool: &str) -> String {
    let output = match Command::new(tool).arg("--version").output() {
        Ok(o) => o,
        Err(e) => { eprintln!("warning: missing {}, ..."); return String::new(); }
    };
    assert!(output.status.success());
    let output = std::str::from_utf8(&output.stdout).expect("invalid utf8 output");
    output.lines().next().expect("empty output").to_string()
}
```

`none` models the aborts (`assert!` failure on a non-zero exit status, and
the `expect("empty output")` panic on empty stdout); a spawn failure is
`some ""`. -/
def probeVersion (env : String → SpawnResult) (tool : String) : Option String :=
  match env tool with
  | .spawnError => some ""
  | .exited success stdout =>
    if success then rustFirstLine stdout else none

/-- Source: `const REQUIRED_CLANG_VERSION: &str = "7.0.1";` -/
def requiredClangVersion : String := "7.0.1"

/-- Result of `verify_fips_clang_version`. -/
inductive FipsResult where
  /-- The function returned the pair `(cc, cxx)`. -/
  | ok (cc cxx : String) : FipsResult
  /-- Abort of `assert!(version(cxx).contains(...), "mismatched versions of cc and c++")`
  failed. -/
  | mismatch : FipsResult
  /-- Abort of `panic!("unsupported clang version \"{}\": FIPS requires clang {}", ...)`. -/
  | unsupported (found : String) : FipsResult
  /-- The `version` helper itself aborted (non-zero exit status or empty
  output). -/
  | probeAbort : FipsResult
  /-- The `unreachable!()` after the loop. -/
  | loopExhausted : FipsResult
deriving DecidableEq

/-- The fixed candidate list of `verify_fips_clang_version`. -/
def fipsCandidates : List (String × String) :=
  [("clang-7", "clang++-7"), ("clang", "clang++"), ("cc", "c++")]

/-- The candidate loop of `verify_fips_clang_version`:

```rust
for (cc, cxx) in [...] {
    let cc_version = version(cc);
    if cc_version.contains(REQUIRED_CLANG_VERSION) {
        assert!(version(cxx).contains(REQUIRED_CLANG_VERSION),
                "mismatched versions of cc and c++");
        return (cc, cxx);
    } else if cc == "cc" {
        panic!("unsupported clang version ...");
    } else if !cc_version.is_empty() {
        eprintln!("warning: ... skipping incompatible version ...");
    }
}
unreachable!()
``` -/
def verifyGo (env : String → SpawnResult) : List (String × String) → FipsResult
  | [] => .loopExhausted
  | (cc, cxx) :: rest =>
    match probeVersion env cc with
    | none => .probeAbort
    | some cc_version =>
      if rustContains cc_version requiredClangVersion then
        match probeVersion env cxx with
        | none => .probeAbort
        | some cxx_version =>
          if rustContains cxx_version requiredClangVersion then .ok cc cxx
          else .mismatch
      else if cc = "cc" then .unsupported cc_version
      else verifyGo env rest

/-- Source: `fn verify_fips_clang_version() -> (&'static str, &'static str)`. -/
def verify_fips_clang_version (env : String → SpawnResult) : FipsResult :=
  verifyGo env fipsCandidates

/-- Behaviour of the verifier once a candidate's C compiler version has
matched: probe the paired C++ compiler and either return the pair, or die
on the `assert!` mismatch, or propagate a probe abort. -/
def checkPair (env : String → SpawnResult) (cc cxx : String) : FipsResult :=
  match probeVersion env cxx with
  | none => .probeAbort
  | some v =>
    if rustContains v requiredClangVersion then .ok cc cxx else .mismatch

/-- Table `CMAKE_PARAMS_ANDROID_NDK_OLD_GCC`: additional cmake parameters for
Android builds with NDK < 18 (GCC toolchains). -/
def CMAKE_PARAMS_ANDROID_NDK_OLD_GCC : List (String × List (String × String)) :=
  [ ("aarch64", [("ANDROID_TOOLCHAIN_NAME", "aarch64-linux-android-4.9")]),
    ("arm", [("ANDROID_TOOLCHAIN_NAME", "arm-linux-androideabi-4.9")]),
    ("x86", [("ANDROID_TOOLCHAIN_NAME", "x86-linux-android-4.9")]),
    ("x86_64", [("ANDROID_TOOLCHAIN_NAME", "x86_64-linux-android-4.9")]) ]

/-- Table `CMAKE_PARAMS_ANDROID_NDK`: additional cmake parameters for Android
builds with NDK >= 19. -/
def CMAKE_PARAMS_ANDROID_NDK : List (String × List (String × String)) :=
  [ ("aarch64", [("ANDROID_ABI", "arm64-v8a")]),
    ("arm", [("ANDROID_ABI", "armeabi-v7a")]),
    ("x86", [("ANDROID_ABI", "x86")]),
    ("x86_64", [("ANDROID_ABI", "x86_64")]) ]

/-- Table `CMAKE_PARAMS_APPLE`: cmake parameters keyed by Apple target triple. -/
def CMAKE_PARAMS_APPLE : List (String × List (String × String)) :=
  [ ("aarch64-apple-ios",
      [("CMAKE_OSX_ARCHITECTURES", "arm64"), ("CMAKE_OSX_SYSROOT", "iphoneos")]),
    ("aarch64-apple-ios-sim",
      [("CMAKE_OSX_ARCHITECTURES", "arm64"), ("CMAKE_OSX_SYSROOT", "iphonesimulator")]),
    ("x86_64-apple-ios",
      [("CMAKE_OSX_ARCHITECTURES", "x86_64"), ("CMAKE_OSX_SYSROOT", "iphonesimulator")]),
    ("aarch64-apple-ios-macabi",
      [("CMAKE_OSX_ARCHITECTURES", "arm64"), ("CMAKE_OSX_SYSROOT", "macosx")]),
    ("x86_64-apple-ios-macabi",
      [("CMAKE_OSX_ARCHITECTURES", "x86_64"), ("CMAKE_OSX_SYSROOT", "macosx")]),
    ("aarch64-apple-darwin",
      [("CMAKE_OSX_ARCHITECTURES", "arm64"), ("CMAKE_OSX_SYSROOT", "macosx")]),
    ("x86_64-apple-darwin",
      [("CMAKE_OSX_ARCHITECTURES", "x86_64"), ("CMAKE_OSX_SYSROOT", "macosx")]) ]

/-- The linear scan shared by `cmake_params_android` and
`cmake_params_apple`: first entry whose key equals `key`, else `&[]`. -/
def lookupTable (key : String) :
    List (String × List (String × String)) → List (String × String)
  | [] => []
  | (k, params) :: rest => if k = key then params else lookupTable key rest

/-- Source: `fn cmake_params_android()`, with the ambient `CARGO_CFG_TARGET_ARCH`
and the `ndk-old-gcc` feature made explicit. -/
def cmake_params_android (ndkOldGcc : Bool) (arch : String) :
    List (String × String) :=
  lookupTable arch
    (if ndkOldGcc then CMAKE_PARAMS_ANDROID_NDK_OLD_GCC else CMAKE_PARAMS_ANDROID_NDK)

/-- Source: `fn cmake_params_apple()`, with the ambient `TARGET` made explicit. -/
def cmake_params_apple (target : String) : List (String × String) :=
  lookupTable target CMAKE_PARAMS_APPLE

/-- Source: `fn get_apple_sdk_name()`: scan the resolved Apple parameters for the
`CMAKE_OSX_SYSROOT` key; `none` models the
`panic!("cannot find SDK for {} in CMAKE_PARAMS_APPLE", target)`. -/
def get_apple_sdk_name (target : String) : Option String :=
  match (cmake_params_apple target).find? (fun p => p.1 == "CMAKE_OSX_SYSROOT") with
  | some p => some p.2
  | none => none

/-- Source: `match &debug_env_var[..] { "false" => false, "true" => true,
unknown => panic!(...) }`. -/
def parseDebug : String → Option Bool
  | "false" => some false
  | "true" => some true
  | _ => none

/-- Source: `fn get_boringssl_platform_output_path() -> String`, with
`cfg!(target_env = "msvc")` and the `DEBUG` / `OPT_LEVEL` environment
variables made explicit (`none` = variable absent).  A `none` result models
the `expect` / `panic!` aborts. -/
def get_boringssl_platform_output_path (msvc : Bool)
    (debug_var opt_var : Option String) : Option String :=
  if msvc then
    match debug_var with
    | none => none
    | some d =>
      match parseDebug d with
      | none => none
      | some deb_info =>
        match opt_var with
        | none => none
        | some o =>
          if o = "0" then some "Debug"
          else if o = "1" ∨ o = "2" ∨ o = "3" then
            if deb_info then some "RelWithDebInfo" else some "Release"
          else if o = "s" ∨ o = "z" then some "MinSizeRel"
          else none
  else some ""

/-- Constant `BORING_SSL_PATH`, selected by the `fips` feature. -/
def boring_ssl_path (fips : Bool) : String :=
  if fips then "deps/boringssl-fips" else "deps/boringssl"

/-- One entry of the `read_dir` listing: its `file_name()` and the outcome
of `file_type().map(|ty| ty.is_dir())` (`none` = `file_type()` errored). -/
structure DirEntry where
  file_name : String
  file_type : Option Bool
deriving DecidableEq

/-- Source: `entry.file_type().map(|ty| ty.is_dir()).unwrap_or(false)`. -/
def entryIsDir (e : DirEntry) : Bool := e.file_type.getD false

/-- Errors of `pick_best_android_ndk_toolchain`. -/
inductive NdkError where
  /-- An `io::Error` propagated from `read_dir` / entry collection by `?`. -/
  | ioError (e : String) : NdkError
  /-- Error `io::Error::new(ErrorKind::NotFound, "no subdirectories at given path")`. -/
  | notFound : NdkError
deriving DecidableEq

/-- The three host toolchain names documented by Google, in the order the
locator tries them. -/
def knownToolchains : List String :=
  ["linux-x86_64", "darwin-x86_64", "windows-x86_64"]

/-- The first loop of `pick_best_android_ndk_toolchain`: for each known
toolchain name in order, return the file name of the first listed entry
bearing exactly that name. -/
def pickKnown (toolchains : List DirEntry) : List String → Option String
  | [] => none
  | k :: ks =>
    match toolchains.find? (fun e => e.file_name == k) with
    | some e => some e.file_name
    | none => pickKnown toolchains ks

/-- Source: `fn pick_best_android_ndk_toolchain(toolchains_dir: &Path)
-> std::io::Result<OsString>`, with the directory listing made explicit
(`Except.error` = the `read_dir`/collect step failed). -/
def pick_best_android_ndk_toolchain (listing : Except String (List DirEntry)) :
    Except NdkError String :=
  match listing with
  | .error e => .error (.ioError e)
  | .ok toolchains =>
    match pickKnown toolchains knownToolchains with
    | some name => .ok name
    | none =>
      match toolchains.find? entryIsDir with
      | some toolchain => .ok toolchain.file_name
      | none => .error .notFound

/-- The `headers` array passed to bindgen, with the `fips` feature made
explicit: `blake2.h` and `trust_token.h` carry
`#[cfg(not(feature = "fips"))]`. -/
def headers (fips : Bool) : List String :=
  ["aes.h", "asn1_mac.h", "asn1t.h"]
  ++ (if fips then [] else ["blake2.h"])
  ++ ["blowfish.h", "cast.h", "chacha.h", "cmac.h", "cpu.h", "curve25519.h",
      "des.h", "dtls1.h", "hkdf.h", "hrss.h", "md4.h", "md5.h", "obj_mac.h",
      "objects.h", "opensslv.h", "ossl_typ.h", "pkcs12.h", "poly1305.h",
      "rand.h", "rc4.h", "ripemd.h", "siphash.h", "srtp.h"]
  ++ (if fips then [] else ["trust_token.h"])
  ++ ["x509v3.h"]

/-- The slice of `cmake::Config` this build script observes: the source
path given to `cmake::Config::new` and the accumulated `define` / `cflag` /
`cxxflag` calls, in call order. -/
structure CmakeConfig where
  source_path : String
  defines : List (String × String)
  cflags : List String
  cxxflags : List String
deriving DecidableEq

/-- Source: `cmake::Config::new(path)`. -/
def CmakeConfig.new (path : String) : CmakeConfig :=
  { source_path := path, defines := [], cflags := [], cxxflags := [] }

/-- Source: `config.define(k, v)`. -/
def CmakeConfig.define (c : CmakeConfig) (k v : String) : CmakeConfig :=
  { c with defines := c.defines ++ [(k, v)] }

/-- Source: `config.cflag(f)`. -/
def CmakeConfig.cflag (c : CmakeConfig) (f : String) : CmakeConfig :=
  { c with cflags := c.cflags ++ [f] }

/-- Source: `for (name, value) in params { config.define(name, value); }`. -/
def defineList (c : CmakeConfig) (ps : List (String × String)) : CmakeConfig :=
  ps.foldl (fun acc p => acc.define p.1 p.2) c

/-- Source: `fn get_boringssl_cmake_config() -> cmake::Config`, with the ambient
inputs made explicit: the `fips` / `ndk-old-gcc` / `android-api-19`
features, `CARGO_CFG_TARGET_ARCH`, `CARGO_CFG_TARGET_OS`, `HOST`, `TARGET`,
the current directory, and `ANDROID_NDK_HOME` (`none` = unset).  `none`
models the `expect` panic on a missing `ANDROID_NDK_HOME`.  Path joins
become `/`-separated string concatenation. -/
def get_boringssl_cmake_config (fips ndkOldGcc androidApi19 : Bool)
    (arch os host target pwd : String) (android_ndk_home : Option String) :
    Option CmakeConfig :=
  let boringssl_cmake := CmakeConfig.new (boring_ssl_path fips)
  if host ≠ target then
    match os with
    | "android" =>
      match android_ndk_home with
      | none => none
      | some ndk =>
        let c := defineList boringssl_cmake (cmake_params_android ndkOldGcc arch)
        let toolchain_file := ndk ++ "/build/cmake/android.toolchain.cmake"
        let c := c.define "CMAKE_TOOLCHAIN_FILE" toolchain_file
        let c := c.define "ANDROID_NATIVE_API_LEVEL"
          (if androidApi19 then "19" else "21")
        some (c.define "ANDROID_STL" "c++_shared")
    | "macos" => some (defineList boringssl_cmake (cmake_params_apple target))
    | "ios" =>
      let c := defineList boringssl_cmake (cmake_params_apple target)
      let bitcode_cflag := "-fembed-bitcode"
      if target.endsWith "-macabi" then
        let compiler_flags := bitcode_cflag ++ " -target " ++ target
        let c := c.define "CMAKE_ASM_FLAGS" compiler_flags
        let c := c.define "CMAKE_C_FLAGS" compiler_flags
        some (c.define "CMAKE_CXX_FLAGS" compiler_flags)
      else
        let target_cflag :=
          if arch = "x86_64" then "-target x86_64-apple-ios-simulator" else ""
        let cflag := bitcode_cflag ++ " " ++ target_cflag
        let c := c.define "CMAKE_ASM_FLAGS" cflag
        some (c.cflag cflag)
    | "windows" =>
      if rustContains host "windows" then
        some (boringssl_cmake.define "OPENSSL_NO_ASM" "YES")
      else some boringssl_cmake
    | "linux" =>
      match arch with
      | "x86" =>
        some (boringssl_cmake.define "CMAKE_TOOLCHAIN_FILE"
          (pwd ++ "/" ++ boring_ssl_path fips ++ "/src/util/32-bit-toolchain.cmake"))
      | "aarch64" =>
        some (boringssl_cmake.define "CMAKE_TOOLCHAIN_FILE"
          (pwd ++ "/cmake/aarch64-linux.cmake"))
      | "arm" =>
        some (boringssl_cmake.define "CMAKE_TOOLCHAIN_FILE"
          (pwd ++ "/cmake/armv7-linux.cmake"))
      | _ => some boringssl_cmake
    | "wasi" =>
      let c := boringssl_cmake.define "CMAKE_TOOLCHAIN_FILE"
        "/opt/wasi-sdk/share/cmake/wasi-sdk-pthread.cmake"
      let c := c.define "WASI_SDK_PREFIX" "/opt/wasi-sdk/"
      some (c.define "CMAKE_C_COMPILER_FORCED" "true")
    | _ => some boringssl_cmake
  else some boringssl_cmake

/-! ## Helper lemmas -/

theorem lookupTable_of_mem (key : String) (ps : List (String × String)) :
    ∀ table : List (String × List (String × String)),
      (table.map Prod.fst).Nodup → (key, ps) ∈ table → lookupTable key table = ps
  | [], _, hmem => by cases hmem
  | (k, qs) :: rest, hnd, hmem => by
    rcases List.mem_cons.mp hmem with heq | htl
    · cases heq
      simp [lookupTable]
    · have hk : key ≠ k := by
        rintro rfl
        exact (List.nodup_cons.mp hnd).1 (List.mem_map.mpr ⟨(key, ps), htl, rfl⟩)
      have hkk : ¬(k = key) := fun h => hk h.symm
      simp only [lookupTable]
      rw [if_neg hkk]
      exact lookupTable_of_mem key ps rest (List.nodup_cons.mp hnd).2 htl

theorem lookupTable_of_not_mem (key : String) :
    ∀ table : List (String × List (String × String)),
      key ∉ table.map Prod.fst → lookupTable key table = []
  | [], _ => rfl
  | (k, qs) :: rest, hmem => by
    have hk : k ≠ key := fun h => hmem (by simp [h])
    simp only [lookupTable, if_neg hk]
    exact lookupTable_of_not_mem key rest (fun h => hmem (by simp [h]))

theorem findByName_of_mem (k : String) :
    ∀ es : List DirEntry, k ∈ es.map DirEntry.file_name →
      ∃ e, es.find? (fun e => e.file_name == k) = some e ∧ e.file_name = k
  | [], hmem => by cases hmem
  | e :: rest, hmem => by
    by_cases he : e.file_name = k
    · exact ⟨e, by simp [List.find?_cons, he], he⟩
    · have hrest : k ∈ rest.map DirEntry.file_name := by
        rcases List.mem_map.mp hmem with ⟨x, hx, hxk⟩
        rcases List.mem_cons.mp hx with rfl | hxtl
        · exact absurd hxk he
        · exact List.mem_map.mpr ⟨x, hxtl, hxk⟩
      obtain ⟨e', he', hk'⟩ := findByName_of_mem k rest hrest
      exact ⟨e', by simp [List.find?_cons, he, he'], hk'⟩

theorem findByName_of_not_mem (k : String) (es : List DirEntry)
    (h : k ∉ es.map DirEntry.file_name) :
    es.find? (fun e => e.file_name == k) = none := by
  rw [List.find?_eq_none]
  intro e he hk
  exact h (List.mem_map.mpr ⟨e, he, by simpa using hk⟩)

/-! ## Claim theorems -/

/-- Claim C1: in FIPS mode the toolchain verifier walks the fixed candidate list
`clang-7`/`clang++-7`, `clang`/`clang++`, `cc`/`c++` in order and commits to
the first pair whose C-compiler version string contains `"7.0.1"`: from that
point the outcome is decided solely by the paired C++ compiler's probe
(`checkPair`), and whenever the paired C++ compiler's version string lacks
the token the result is the fatal cc/c++ mismatch abort — no later candidate
is ever tried. -/
theorem fips_verifier_first_match (env : String → SpawnResult) :
    (∀ s, probeVersion env "clang-7" = some s →
      rustContains s requiredClangVersion = true →
      verify_fips_clang_version env = checkPair env "clang-7" "clang++-7")
    ∧ (∀ s1 s2, probeVersion env "clang-7" = some s1 →
      rustContains s1 requiredClangVersion = false →
      probeVersion env "clang" = some s2 →
      rustContains s2 requiredClangVersion = true →
      verify_fips_clang_version env = checkPair env "clang" "clang++")
    ∧ (∀ s1 s2 s3, probeVersion env "clang-7" = some s1 →
      rustContains s1 requiredClangVersion = false →
      probeVersion env "clang" = some s2 →
      rustContains s2 requiredClangVersion = false →
      probeVersion env "cc" = some s3 →
      rustContains s3 requiredClangVersion = true →
      verify_fips_clang_version env = checkPair env "cc" "c++")
    ∧ (∀ cc cxx t, probeVersion env cxx = some t →
      rustContains t requiredClangVersion = false →
      checkPair env cc cxx = FipsResult.mismatch) := by
  refine ⟨?_, ?_, ?_, ?_⟩
  · intro s hs hc
    simp [verify_fips_clang_version, fipsCandidates, verifyGo, hs, hc, checkPair]
  · intro s1 s2 hs1 hc1 hs2 hc2
    simp [verify_fips_clang_version, fipsCandidates, verifyGo, hs1, hc1, hs2, hc2,
      checkPair]
  · intro s1 s2 s3 hs1 hc1 hs2 hc2 hs3 hc3
    simp [verify_fips_clang_version, fipsCandidates, verifyGo, hs1, hc1, hs2, hc2,
      hs3, hc3, checkPair]
  · intro cc cxx t ht hc
    simp [checkPair, ht, hc]

/-- A mock spawn oracle: `clang-7` and `clang++-7` both report a version
line containing `7.0.1`; every other binary is absent. -/
def envOkPair : String → SpawnResult := fun tool =>
  if tool = "clang-7" then .exited true "clang version 7.0.1 (tags/RELEASE_701/final)"
  else if tool = "clang++-7" then .exited true "clang version 7.0.1 (tags/RELEASE_701/final)"
  else .spawnError

/-- Witness for C1 at the concrete oracle `envOkPair`. -/
theorem fips_verifier_first_match_w :
    verify_fips_clang_version envOkPair = FipsResult.ok "clang-7" "clang++-7" := by
  have h := (fips_verifier_first_match envOkPair).1
    "clang version 7.0.1 (tags/RELEASE_701/final)" (by decide) (by decide)
  rw [h]; decide

/-- Claim C2: a candidate C compiler whose binary cannot be spawned is treated as
having the empty version string (the probe does not abort), and — for the
candidates that have a successor, `clang-7` and `clang` — the verifier then
continues the search with the remaining candidates. -/
theorem fips_spawn_failure_skip (env : String → SpawnResult) :
    (env "clang-7" = SpawnResult.spawnError →
      probeVersion env "clang-7" = some "" ∧
      verify_fips_clang_version env = verifyGo env [("clang", "clang++"), ("cc", "c++")])
    ∧ (env "clang" = SpawnResult.spawnError →
      probeVersion env "clang" = some "" ∧
      verifyGo env [("clang", "clang++"), ("cc", "c++")] = verifyGo env [("cc", "c++")]) := by
  have hcf : rustContains "" requiredClangVersion = false := by decide
  constructor
  · intro h
    have hp : probeVersion env "clang-7" = some "" := by
      simp [probeVersion, h]
    exact ⟨hp, by simp [verify_fips_clang_version, fipsCandidates, verifyGo, hp, hcf]⟩
  · intro h
    have hp : probeVersion env "clang" = some "" := by
      simp [probeVersion, h]
    exact ⟨hp, by simp [verifyGo, hp, hcf]⟩

/-- A mock spawn oracle under which every binary is absent. -/
def envAllFail : String → SpawnResult := fun _ => .spawnError

/-- Witness for C2 at the concrete oracle `envAllFail`. -/
theorem fips_spawn_failure_skip_w :
    probeVersion envAllFail "clang-7" = some "" ∧
    verify_fips_clang_version envAllFail
      = verifyGo envAllFail [("clang", "clang++"), ("cc", "c++")] :=
  (fips_spawn_failure_skip envAllFail).1 rfl

/-- Claim C10: in the verifier's version probe, a candidate whose binary spawns
but exits with a non-zero status aborts immediately (failed `assert!`), and
a successfully exiting probe with empty output aborts as well (failed
`expect("empty output")`); in both cases the verifier's loop stops with the
abort instead of skipping to the next candidate the way a spawn failure is
skipped. -/
theorem fips_probe_abort_cases (env : String → SpawnResult) (cc cxx : String)
    (rest : List (String × String)) :
    (∀ out, env cc = SpawnResult.exited false out →
      probeVersion env cc = none ∧
      verifyGo env ((cc, cxx) :: rest) = FipsResult.probeAbort)
    ∧ (env cc = SpawnResult.exited true "" →
      probeVersion env cc = none ∧
      verifyGo env ((cc, cxx) :: rest) = FipsResult.probeAbort) := by
  constructor
  · intro out h
    have hp : probeVersion env cc = none := by simp [probeVersion, h]
    exact ⟨hp, by simp [verifyGo, hp]⟩
  · intro h
    have hp : probeVersion env cc = none := by
      simp [probeVersion, h, rustFirstLine]
    exact ⟨hp, by simp [verifyGo, hp]⟩

/-- A mock spawn oracle whose every binary exits with a non-zero status. -/
def envExitFail : String → SpawnResult := fun _ => .exited false "error: no input"

/-- A mock spawn oracle whose every binary succeeds with empty output. -/
def envEmptyOut : String → SpawnResult := fun _ => .exited true ""

/-- Witness for C10 at the concrete oracles `envExitFail` and `envEmptyOut`. -/
theorem fips_probe_abort_cases_w :
    (probeVersion envExitFail "clang-7" = none ∧
      verifyGo envExitFail [("clang-7", "clang++-7"), ("clang", "clang++"), ("cc", "c++")]
        = FipsResult.probeAbort)
    ∧ (probeVersion envEmptyOut "clang-7" = none ∧
      verifyGo envEmptyOut [("clang-7", "clang++-7"), ("clang", "clang++"), ("cc", "c++")]
        = FipsResult.probeAbort) :=
  ⟨(fips_probe_abort_cases envExitFail "clang-7" "clang++-7"
      [("clang", "clang++"), ("cc", "c++")]).1 "error: no input" rfl,
   (fips_probe_abort_cases envEmptyOut "clang-7" "clang++-7"
      [("clang", "clang++"), ("cc", "c++")]).2 rfl⟩

/-- Claim C3: on an MSVC toolchain the platform output subdirectory is
`"Release"` for (debug=false, opt="3"), `"RelWithDebInfo"` for (debug=true,
opt="1"), `"Debug"` for (debug=false, opt="0"), `"MinSizeRel"` for opt="s"
under either debug value, and any opt value outside the recognized set
{0,1,2,3,s,z} is a fatal configuration error; on every non-MSVC toolchain
the subdirectory is the empty string. -/
theorem msvc_output_subdir_map :
    get_boringssl_platform_output_path true (some "false") (some "3") = some "Release"
    ∧ get_boringssl_platform_output_path true (some "true") (some "1") = some "RelWithDebInfo"
    ∧ get_boringssl_platform_output_path true (some "false") (some "0") = some "Debug"
    ∧ (∀ d, d = "true" ∨ d = "false" →
        get_boringssl_platform_output_path true (some d) (some "s") = some "MinSizeRel")
    ∧ (∀ d o, (d = "true" ∨ d = "false") →
        o ∉ (["0", "1", "2", "3", "s", "z"] : List String) →
        get_boringssl_platform_output_path true (some d) (some o) = none)
    ∧ (∀ dv ov, get_boringssl_platform_output_path false dv ov = some "") := by
  refine ⟨by decide, by decide, by decide, ?_, ?_, ?_⟩
  · rintro d (rfl | rfl) <;> decide
  · rintro d o (rfl | rfl) ho <;>
    · simp only [List.mem_cons, List.not_mem_nil, or_false] at ho
      push_neg at ho
      obtain ⟨h0, h1, h2, h3, hs, hz⟩ := ho
      simp [get_boringssl_platform_output_path, parseDebug, h0, h1, h2, h3, hs, hz]
  · intro dv ov
    simp [get_boringssl_platform_output_path]

/-- Witness for C3 at concrete debug/opt values. -/
theorem msvc_output_subdir_map_w :
    get_boringssl_platform_output_path true (some "true") (some "s") = some "MinSizeRel"
    ∧ get_boringssl_platform_output_path true (some "false") (some "4") = none
    ∧ get_boringssl_platform_output_path false none none = some "" :=
  ⟨msvc_output_subdir_map.2.2.2.1 "true" (Or.inl rfl),
   msvc_output_subdir_map.2.2.2.2.1 "false" "4" (Or.inr rfl) (by decide),
   msvc_output_subdir_map.2.2.2.2.2 none none⟩

/-- Claim C4: `get_apple_sdk_name` yields `iphoneos` for `aarch64-apple-ios`,
`iphonesimulator` for `aarch64-apple-ios-sim` and `x86_64-apple-ios`,
`macosx` for the two Catalyst triples and the two macOS triples, and panics
(modelled as `none`) for every target triple absent from
`CMAKE_PARAMS_APPLE`. -/
theorem apple_sdk_name_map :
    get_apple_sdk_name "aarch64-apple-ios" = some "iphoneos"
    ∧ get_apple_sdk_name "aarch64-apple-ios-sim" = some "iphonesimulator"
    ∧ get_apple_sdk_name "x86_64-apple-ios" = some "iphonesimulator"
    ∧ get_apple_sdk_name "aarch64-apple-ios-macabi" = some "macosx"
    ∧ get_apple_sdk_name "x86_64-apple-ios-macabi" = some "macosx"
    ∧ get_apple_sdk_name "aarch64-apple-darwin" = some "macosx"
    ∧ get_apple_sdk_name "x86_64-apple-darwin" = some "macosx"
    ∧ (∀ t, t ∉ CMAKE_PARAMS_APPLE.map Prod.fst → get_apple_sdk_name t = none) := by
  refine ⟨by decide, by decide, by decide, by decide, by decide, by decide, by decide, ?_⟩
  intro t ht
  have h : cmake_params_apple t = [] :=
    lookupTable_of_not_mem t CMAKE_PARAMS_APPLE ht
  simp [get_apple_sdk_name, h]

/-- Witness for C4 at a target triple outside the Apple table. -/
theorem apple_sdk_name_map_w :
    get_apple_sdk_name "riscv64gc-unknown-linux-gnu" = none :=
  apple_sdk_name_map.2.2.2.2.2.2.2 "riscv64gc-unknown-linux-gnu" (by decide)

/-- Claim C5: the NDK toolchain locator returns, for a successfully listed
directory, the first known host-toolchain name `linux-x86_64`,
`darwin-x86_64`, `windows-x86_64` (in that fixed preference order) that
occurs among the children regardless of listing order; if none occurs it
returns the name of some child that is a directory; if there is no such
child it fails with the not-found error; and a listing failure propagates
as a filesystem error. -/
theorem ndk_locator_preference :
    (∀ es : List DirEntry, "linux-x86_64" ∈ es.map DirEntry.file_name →
      pick_best_android_ndk_toolchain (.ok es) = .ok "linux-x86_64")
    ∧ (∀ es : List DirEntry, "linux-x86_64" ∉ es.map DirEntry.file_name →
      "darwin-x86_64" ∈ es.map DirEntry.file_name →
      pick_best_android_ndk_toolchain (.ok es) = .ok "darwin-x86_64")
    ∧ (∀ es : List DirEntry, "linux-x86_64" ∉ es.map DirEntry.file_name →
      "darwin-x86_64" ∉ es.map DirEntry.file_name →
      "windows-x86_64" ∈ es.map DirEntry.file_name →
      pick_best_android_ndk_toolchain (.ok es) = .ok "windows-x86_64")
    ∧ (∀ es : List DirEntry, (∀ k ∈ knownToolchains, k ∉ es.map DirEntry.file_name) →
      (∃ e0 ∈ es, entryIsDir e0 = true) →
      ∃ e ∈ es, entryIsDir e = true ∧
        pick_best_android_ndk_toolchain (.ok es) = .ok e.file_name)
    ∧ (∀ es : List DirEntry, (∀ k ∈ knownToolchains, k ∉ es.map DirEntry.file_name) →
      (∀ e ∈ es, entryIsDir e = false) →
      pick_best_android_ndk_toolchain (.ok es) = .error NdkError.notFound)
    ∧ (∀ msg, pick_best_android_ndk_toolchain (.error msg)
        = .error (NdkError.ioError msg)) := by
  refine ⟨?_, ?_, ?_, ?_, ?_, ?_⟩
  · intro es h
    obtain ⟨e, he, hk⟩ := findByName_of_mem "linux-x86_64" es h
    simp [pick_best_android_ndk_toolchain, pickKnown, knownToolchains, he, hk]
  · intro es h1 h2
    obtain ⟨e, he, hk⟩ := findByName_of_mem "darwin-x86_64" es h2
    simp [pick_best_android_ndk_toolchain, pickKnown, knownToolchains,
      findByName_of_not_mem _ es h1, he, hk]
  · intro es h1 h2 h3
    obtain ⟨e, he, hk⟩ := findByName_of_mem "windows-x86_64" es h3
    simp [pick_best_android_ndk_toolchain, pickKnown, knownToolchains,
      findByName_of_not_mem _ es h1, findByName_of_not_mem _ es h2, he, hk]
  · intro es hk hdir
    have hfind : (es.find? entryIsDir).isSome := by
      rw [List.find?_isSome]
      exact hdir
    obtain ⟨e, he⟩ := Option.isSome_iff_exists.mp hfind
    refine ⟨e, List.mem_of_find?_eq_some he, List.find?_some he, ?_⟩
    have h1 := hk "linux-x86_64" (by simp [knownToolchains])
    have h2 := hk "darwin-x86_64" (by simp [knownToolchains])
    have h3 := hk "windows-x86_64" (by simp [knownToolchains])
    simp [pick_best_android_ndk_toolchain, pickKnown, knownToolchains,
      findByName_of_not_mem _ es h1, findByName_of_not_mem _ es h2,
      findByName_of_not_mem _ es h3, he]
  · intro es hk hdir
    have hfind : es.find? entryIsDir = none :=
      List.find?_eq_none.mpr (fun e he => by simp [hdir e he])
    have h1 := hk "linux-x86_64" (by simp [knownToolchains])
    have h2 := hk "darwin-x86_64" (by simp [knownToolchains])
    have h3 := hk "windows-x86_64" (by simp [knownToolchains])
    simp [pick_best_android_ndk_toolchain, pickKnown, knownToolchains,
      findByName_of_not_mem _ es h1, findByName_of_not_mem _ es h2,
      findByName_of_not_mem _ es h3, hfind]
  · intro msg
    rfl

/-- Witness for C5: `linux-x86_64` wins even when listed after other
entries. -/
theorem ndk_locator_preference_w :
    pick_best_android_ndk_toolchain
      (.ok [⟨"zzz-first", some true⟩, ⟨"windows-x86_64", some true⟩,
            ⟨"linux-x86_64", some true⟩])
      = .ok "linux-x86_64" :=
  ndk_locator_preference.1
    [⟨"zzz-first", some true⟩, ⟨"windows-x86_64", some true⟩,
     ⟨"linux-x86_64", some true⟩] (by decide)

/-- Claim C6: both platform parameter lookups are total: a key present in the
selected table (either Android table, keyed by architecture, or the Apple
table, keyed by target triple) yields exactly the parameter sequence stored
for that key, and a key with no entry yields the empty sequence rather than
an error. -/
theorem platform_table_lookup_total :
    (∀ (ndkOldGcc : Bool) (arch : String) ps,
      (arch, ps) ∈ (if ndkOldGcc then CMAKE_PARAMS_ANDROID_NDK_OLD_GCC
                    else CMAKE_PARAMS_ANDROID_NDK) →
      cmake_params_android ndkOldGcc arch = ps)
    ∧ (∀ (ndkOldGcc : Bool) (arch : String),
      arch ∉ ((if ndkOldGcc then CMAKE_PARAMS_ANDROID_NDK_OLD_GCC
               else CMAKE_PARAMS_ANDROID_NDK).map Prod.fst) →
      cmake_params_android ndkOldGcc arch = [])
    ∧ (∀ (target : String) ps, (target, ps) ∈ CMAKE_PARAMS_APPLE →
      cmake_params_apple target = ps)
    ∧ (∀ target : String, target ∉ CMAKE_PARAMS_APPLE.map Prod.fst →
      cmake_params_apple target = []) := by
  refine ⟨?_, ?_, ?_, ?_⟩
  · intro ndkOldGcc arch ps hmem
    cases ndkOldGcc <;>
      exact lookupTable_of_mem arch ps _ (by decide) hmem
  · intro ndkOldGcc arch hmem
    cases ndkOldGcc <;> exact lookupTable_of_not_mem arch _ hmem
  · intro target ps hmem
    exact lookupTable_of_mem target ps _ (by decide) hmem
  · intro target hmem
    exact lookupTable_of_not_mem target _ hmem

/-- Witness for C6 at a present Android key, a present Apple key, and an
absent key. -/
theorem platform_table_lookup_total_w :
    cmake_params_android false "aarch64" = [("ANDROID_ABI", "arm64-v8a")]
    ∧ cmake_params_apple "x86_64-apple-ios"
        = [("CMAKE_OSX_ARCHITECTURES", "x86_64"), ("CMAKE_OSX_SYSROOT", "iphonesimulator")]
    ∧ cmake_params_android true "riscv64" = [] :=
  ⟨platform_table_lookup_total.1 false "aarch64" [("ANDROID_ABI", "arm64-v8a")] (by decide),
   platform_table_lookup_total.2.2.1 "x86_64-apple-ios"
     [("CMAKE_OSX_ARCHITECTURES", "x86_64"), ("CMAKE_OSX_SYSROOT", "iphonesimulator")]
     (by decide),
   platform_table_lookup_total.2.1 true "riscv64" (by decide)⟩

/-- Claim C7: the bindgen header manifest in FIPS mode is exactly the non-FIPS
manifest with `blake2.h` and `trust_token.h` removed — every other header
is kept in the same relative order — and both headers are present in the
non-FIPS manifest and absent from the FIPS one. -/
theorem headers_fips_exclusion :
    headers true
      = (headers false).filter (fun h => !(h == "blake2.h" || h == "trust_token.h"))
    ∧ "blake2.h" ∈ headers false
    ∧ "trust_token.h" ∈ headers false
    ∧ "blake2.h" ∉ headers true
    ∧ "trust_token.h" ∉ headers true := by
  refine ⟨by decide, by decide, by decide, by decide, by decide⟩

/-- Claim C8: the cmake configuration builder injects platform-specific
parameters only for cross builds: whenever the host triple equals the
target triple the result is exactly the fresh configuration over the
BoringSSL source path, with no defines and no compiler flags, for every
operating system, architecture, and feature combination. -/
theorem cmake_config_native_no_params (fips ndkOldGcc androidApi19 : Bool)
    (arch os host target pwd : String) (ndk : Option String)
    (h : host = target) :
    get_boringssl_cmake_config fips ndkOldGcc androidApi19 arch os host target pwd ndk
      = some (CmakeConfig.new (boring_ssl_path fips)) := by
  subst h
  simp [get_boringssl_cmake_config]

/-- Witness for C8 at a concrete native (host = target) invocation. -/
theorem cmake_config_native_no_params_w :
    get_boringssl_cmake_config false false false "x86_64" "linux"
      "x86_64-unknown-linux-gnu" "x86_64-unknown-linux-gnu" "/work" none
      = some (CmakeConfig.new (boring_ssl_path false)) :=
  cmake_config_native_no_params false false false "x86_64" "linux"
    "x86_64-unknown-linux-gnu" "x86_64-unknown-linux-gnu" "/work" none rfl

/-- Claim C9: the locator's known-name step matches children by name alone,
never consulting their file type: a lone child named after any of the three
known host toolchains is returned even when it is a plain file (arbitrary
`file_type`); only the fallback step filters for directories, so a listing
of unrecognized non-directories fails with the not-found error instead of
returning one of them. -/
theorem ndk_known_name_ignores_file_type :
    (∀ (k : String) (ft : Option Bool), k ∈ knownToolchains →
      pick_best_android_ndk_toolchain (.ok [⟨k, ft⟩]) = .ok k)
    ∧ (∀ es : List DirEntry, (∀ k ∈ knownToolchains, k ∉ es.map DirEntry.file_name) →
      (∀ e ∈ es, entryIsDir e = false) →
      pick_best_android_ndk_toolchain (.ok es) = .error NdkError.notFound) := by
  constructor
  · intro k ft hk
    simp only [knownToolchains, List.mem_cons, List.not_mem_nil, or_false] at hk
    rcases hk with rfl | rfl | rfl <;>
      simp [pick_best_android_ndk_toolchain, pickKnown, knownToolchains, List.find?_cons]
  · intro es hk hdir
    have hfind : es.find? entryIsDir = none :=
      List.find?_eq_none.mpr (fun e he => by simp [hdir e he])
    have h1 := hk "linux-x86_64" (by simp [knownToolchains])
    have h2 := hk "darwin-x86_64" (by simp [knownToolchains])
    have h3 := hk "windows-x86_64" (by simp [knownToolchains])
    simp [pick_best_android_ndk_toolchain, pickKnown, knownToolchains,
      findByName_of_not_mem _ es h1, findByName_of_not_mem _ es h2,
      findByName_of_not_mem _ es h3, hfind]

/-- Witness for C9: a plain file named `darwin-x86_64` is still returned by
the known-name step, and a plain file with an unknown name is not returned
by the fallback. -/
theorem ndk_known_name_ignores_file_type_w :
    pick_best_android_ndk_toolchain (.ok [⟨"darwin-x86_64", some false⟩])
      = .ok "darwin-x86_64"
    ∧ pick_best_android_ndk_toolchain (.ok [⟨"README.txt", some false⟩])
      = .error NdkError.notFound :=
  ⟨ndk_known_name_ignores_file_type.1 "darwin-x86_64" (some false) (by decide),
   ndk_known_name_ignores_file_type.2 [⟨"README.txt", some false⟩]
     (by decide) (by decide)⟩

end BoringSys
